import Mathlib

/-!
Verification of the swagger metadata/documentation subsystem of the
node-boilerplate repository.

The development shallowly embeds the TypeScript sources:

* `src/modules/shared/swagger/decorators/*.ts` (the decorator layer and its
  metadata store, here an explicit `Store` value threaded through the
  decorator functions),
* `src/modules/shared/swagger/swagger-generator.ts` / `controller-base.ts`
  (route recording and per-route OpenAPI operation assembly),
* `src/modules/shared/swagger/swagger-config.ts` / `swagger.service.ts`
  (document assembly, path mapping, `$ref` post-processing).

JavaScript objects are modelled by `Json` values whose object fields are
ordered lists of key/value pairs, matching JS insertion-order semantics for
non-integer keys; property maps attached by decorators via `reflect-metadata`
are modelled by an explicit heap (`PropHeap`) so that the in-place mutation
and prototype-chain sharing of `ApiProperty` maps is represented faithfully.
Functions (class values) appearing inside schema objects are the `Json.cls`
constructor; `JSON.stringify` drops object entries whose value is `undefined`
or a function, which `Json.serialize` reproduces.  Recursion over `Json` uses
an explicit `Nat` fuel so that all definitions compute by kernel reduction;
every fuel constant used below strictly dominates the depth of any value
arising in this development.
-/

namespace NodeApi

/-- The DTO classes of the repository that carry `ApiProperty` metadata.
Class identity (not the name string) is the metadata key, matching
`Reflect.defineMetadata(key, value, target.constructor)`. -/
inductive ClassId where
  | timestampDto
  | userResponseDto
  | userListResponseDto
  | createUserDto
  | updateUserDto
  | errorResponseDto
  | validationErrorResponseDto
  | conflictErrorResponseDto
  deriving DecidableEq

/-- `dtoClass.name` as used for schema keys and `$ref` targets. -/
def ClassId.className : ClassId → String
  | .timestampDto => "TimestampDto"
  | .userResponseDto => "UserResponseDto"
  | .userListResponseDto => "UserListResponseDto"
  | .createUserDto => "CreateUserDto"
  | .updateUserDto => "UpdateUserDto"
  | .errorResponseDto => "ErrorResponseDto"
  | .validationErrorResponseDto => "ValidationErrorResponseDto"
  | .conflictErrorResponseDto => "ConflictErrorResponseDto"

/-- The prototype chain of each DTO class constructor, starting with the class
itself: `ValidationErrorResponseDto extends ErrorResponseDto`,
`ConflictErrorResponseDto extends ErrorResponseDto`,
`UserResponseDto extends TimestampDto`; every other class extends nothing. -/
def ClassId.protoChain : ClassId → List ClassId
  | .userResponseDto => [.userResponseDto, .timestampDto]
  | .validationErrorResponseDto => [.validationErrorResponseDto, .errorResponseDto]
  | .conflictErrorResponseDto => [.conflictErrorResponseDto, .errorResponseDto]
  | c => [c]

/-- JavaScript values as they occur in the metadata facts and the generated
OpenAPI document.  `obj` fields are in JS insertion order; `undef` is the JS
`undefined` value (kept when source code leaves an `undefined`-valued key in
place); `cls` is a class (function) value stored inside a schema. -/
inductive Json where
  | str   : String → Json
  | num   : Int → Json
  | bool  : Bool → Json
  | undef : Json
  | cls   : ClassId → Json
  | arr   : List Json → Json
  | obj   : List (String × Json) → Json

/-- Field lookup on a JS object (first matching key; our builders never
produce duplicate keys). Non-objects have no fields. -/
def Json.lookup (j : Json) (k : String) : Option Json :=
  match j with
  | .obj fields => (fields.find? (fun p => p.1 == k)).map (·.2)
  | _ => none

/-- `a?.b?.c` style access through nested objects. -/
def Json.lookupPath (j : Json) : List String → Option Json
  | [] => some j
  | k :: ks => match j.lookup k with
    | some v => v.lookupPath ks
    | none => none

/-- The keys of a JS object, in order. -/
def Json.keys (j : Json) : List String :=
  match j with
  | .obj fields => fields.map (·.1)
  | _ => []

/-- JS truthiness, for the `if (x)` / `!x` tests in the source. -/
def jsTruthy : Json → Bool
  | .str s => !(s == "")
  | .num n => !(n == 0)
  | .bool b => b
  | .undef => false
  | .cls _ => true
  | .arr _ => true
  | .obj _ => true

/-- Backslash-escape for JSON string serialization (the strings of this
code base contain no control characters). -/
def escapeChars : List Char → List Char
  | [] => []
  | c :: rest =>
      if c = '"' then '\\' :: '"' :: escapeChars rest
      else if c = '\\' then '\\' :: '\\' :: escapeChars rest
      else c :: escapeChars rest

/-- Decimal digits of a natural number (fuelled division recursion). -/
def natDigitsF : Nat → Nat → List Char
  | 0, _ => []
  | f + 1, n =>
      if n < 10 then [Char.ofNat (48 + n)]
      else natDigitsF f (n / 10) ++ [Char.ofNat (48 + n % 10)]

/-- Decimal representation of an integer. -/
def intChars (n : Int) : List Char :=
  if n < 0 then '-' :: natDigitsF (n.natAbs + 1) n.natAbs
  else natDigitsF (n.natAbs + 1) n.natAbs

/-- Decimal string of a natural number (JS stringifies integer object keys
this way). -/
def natKey (n : Nat) : String := String.mk (natDigitsF (n + 1) n)

def quoted (s : String) : List Char := '"' :: escapeChars s.data ++ ['"']

def joinComma : List (List Char) → List Char
  | [] => []
  | [x] => x
  | x :: y :: rest => x ++ ',' :: joinComma (y :: rest)

/-- `JSON.stringify`: object entries whose value is `undefined` or a function
are dropped; inside arrays such values print as `null`.  The source serves
`JSON.stringify(spec, null, 2)`; the indentation whitespace is a fixed
function of the structure, so equality (and inequality) of serialized
documents is unaffected by omitting it here. -/
def serializeF : Nat → Json → List Char
  | 0, _ => []
  | _ + 1, .str s => quoted s
  | _ + 1, .num n => intChars n
  | _ + 1, .bool b => if b then "true".data else "false".data
  | _ + 1, .undef => "null".data
  | _ + 1, .cls _ => "null".data
  | fuel + 1, .arr xs =>
      '[' :: joinComma (xs.map (fun x => serializeF fuel x)) ++ [']']
  | fuel + 1, .obj fields =>
      let kept := fields.filter (fun p =>
        match p.2 with | .undef => false | .cls _ => false | _ => true)
      '{' :: joinComma (kept.map (fun p => quoted p.1 ++ ':' :: serializeF fuel p.2)) ++ ['}']
  termination_by structural fuel _ => fuel

def Json.serialize (j : Json) : String := String.mk (serializeF 64 j)

/-- `obj[k] = v` on a field list: replace in place if the key exists
(JS keeps the original key position), else append. -/
def objSetFields : List (String × Json) → String → Json → List (String × Json)
  | [], k, v => [(k, v)]
  | (k0, v0) :: rest, k, v =>
      if k0 == k then (k0, v) :: rest else (k0, v0) :: objSetFields rest k v

/-- Modify the value at an existing key in place (no-op when absent). -/
def objModifyField : List (String × Json) → String → (Json → Json) → List (String × Json)
  | [], _, _ => []
  | (k0, v0) :: rest, k, f =>
      if k0 == k then (k0, f v0) :: rest else (k0, v0) :: objModifyField rest k f

def Json.modify (j : Json) (k : String) (f : Json → Json) : Json :=
  match j with
  | .obj fields => .obj (objModifyField fields k f)
  | _ => j

/-- `[(k, v)]` when the option is set, nothing otherwise: models the
"remove undefined values" loops of the decorator layer. -/
def optEntry (k : String) : Option Json → List (String × Json)
  | some v => [(k, v)]
  | none => []

/-- A key that stays present with an `undefined` value (sources that build the
object literal without a cleanup loop for that key). -/
def undefEntry (k : String) : Option Json → List (String × Json)
  | some v => [(k, v)]
  | none => [(k, .undef)]

/-- ASCII lowercase, for `method.toLowerCase()`. -/
def lowerChar (c : Char) : Char :=
  if 'A' ≤ c ∧ c ≤ 'Z' then Char.ofNat (c.toNat + 32) else c

def lowerString (s : String) : String := String.mk (s.data.map lowerChar)

/-- ASCII uppercase, for `method.toUpperCase()`. -/
def upperChar (c : Char) : Char :=
  if 'a' ≤ c ∧ c ≤ 'z' then Char.ofNat (c.toNat - 32) else c

def upperString (s : String) : String := String.mk (s.data.map upperChar)

/-! ## `ApiProperty` metadata heap (api-property.decorator.ts)

`ApiProperty` fetches the current map with
`Reflect.getMetadata(KEY, target.constructor)` — which walks the prototype
chain of the class — mutates that map object in place
(`existingProperties[propertyKey] = propertySchema`) and re-registers the
same object as own metadata of the class.  Object identity matters here, so
the maps live on an explicit heap and classes hold heap addresses. -/

structure PropHeap where
  /-- own `swagger:api-property` metadata: class → heap address of its map -/
  store : List (ClassId × Nat) := []
  /-- heap: address → ordered property map -/
  heap : List (Nat × List (String × Json)) := []
  /-- next fresh address -/
  next : Nat := 0

/-- Own-metadata lookup (no prototype-chain walk). -/
def ownLookup (h : PropHeap) (c : ClassId) : Option Nat :=
  ((h.store.find? (fun p => p.1 == c)).map (·.2))

/-- `Reflect.getMetadata(KEY, c)`: first own metadata along the prototype
chain of `c`. -/
def chainLookup (h : PropHeap) (c : ClassId) : Option Nat :=
  c.protoChain.firstM (fun a => ownLookup h a)

def heapRead (h : PropHeap) (addr : Nat) : List (String × Json) :=
  (((h.heap.find? (fun p => p.1 == addr)).map (·.2)).getD [])

def heapWrite (hp : List (Nat × List (String × Json))) (addr : Nat)
    (m : List (String × Json)) : List (Nat × List (String × Json)) :=
  hp.map (fun p => if p.1 == addr then (p.1, m) else p)

def storeSet (st : List (ClassId × Nat)) (c : ClassId) (addr : Nat) :
    List (ClassId × Nat) :=
  if st.any (fun p => p.1 == c) then
    st.map (fun p => if p.1 == c then (p.1, addr) else p)
  else st ++ [(c, addr)]

/-- The mapping of `getTypeFromMetadata` from the `design:type` constructor
emitted by the TypeScript compiler to a schema type string. -/
inductive DesignType where
  | string | number | boolean | array | date | object | absent

def getTypeFromMetadata : DesignType → String
  | .string => "string"
  | .number => "number"
  | .boolean => "boolean"
  | .array => "array"
  | .date => "string"
  | .object => "object"
  | .absent => "string"

structure ApiPropertyOptions where
  description : Option String := none
  exampleVal : Option Json := none
  required : Option Bool := none
  type : Option String := none
  format : Option String := none
  enum : Option (List Json) := none
  minLength : Option Int := none
  maxLength : Option Int := none
  minimum : Option Int := none
  maximum : Option Int := none
  pattern : Option String := none
  items : Option Json := none
  additionalProperties : Option Bool := none

/-- The `propertySchema` object literal of `ApiProperty`, after its
"remove undefined values" loop; `designType` is the `design:type` the
compiler emitted for the decorated field. -/
def propertySchema (o : ApiPropertyOptions) (designType : DesignType) : Json :=
  .obj ([("type", .str (o.type.getD (getTypeFromMetadata designType)))]
    ++ optEntry "description" (o.description.map .str)
    ++ optEntry "example" o.exampleVal
    ++ optEntry "required" (o.required.map .bool)
    ++ optEntry "format" (o.format.map .str)
    ++ optEntry "enum" (o.enum.map .arr)
    ++ optEntry "minLength" (o.minLength.map .num)
    ++ optEntry "maxLength" (o.maxLength.map .num)
    ++ optEntry "minimum" (o.minimum.map .num)
    ++ optEntry "maximum" (o.maximum.map .num)
    ++ optEntry "pattern" (o.pattern.map .str)
    ++ optEntry "items" o.items
    ++ optEntry "additionalProperties" (o.additionalProperties.map .bool))

/-- Insert-or-overwrite in a property map: an existing key keeps its
position, a new key is appended (JS object update semantics). -/
def mapSet (m : List (String × Json)) (k : String) (v : Json) :
    List (String × Json) := objSetFields m k v

/-- `ApiProperty(options)` applied to field `field` of class `c`. -/
def ApiProperty (o : ApiPropertyOptions) (designType : DesignType)
    (c : ClassId) (field : String) (h : PropHeap) : PropHeap :=
  let sch := propertySchema o designType
  match chainLookup h c with
  | some addr =>
      { h with
        heap := heapWrite h.heap addr (mapSet (heapRead h addr) field sch)
        store := storeSet h.store c addr }
  | none =>
      { store := storeSet h.store c h.next
        heap := h.heap ++ [(h.next, [(field, sch)])]
        next := h.next + 1 }

/-- `ApiPropertyOptional(options)` = `ApiProperty({...options, required: false})`. -/
def ApiPropertyOptional (o : ApiPropertyOptions) (designType : DesignType)
    (c : ClassId) (field : String) (h : PropHeap) : PropHeap :=
  ApiProperty { o with required := some false } designType c field h

/-- `getApiProperties(target)`: metadata lookup through the prototype chain,
defaulting to the empty map. -/
def getApiProperties (h : PropHeap) (c : ClassId) : List (String × Json) :=
  match chainLookup h c with
  | some addr => heapRead h addr
  | none => []

/-! ## Method-level decorator facts -/

/-- The `type` option of `ApiResponse` / `ApiBody`: either a basic type
string or a DTO class value. -/
inductive SchemaType where
  | primitive : String → SchemaType
  | dto : ClassId → SchemaType

/-- `required: Object.keys(properties).filter((key) => properties[key].required)` -/
def requiredKeys (props : List (String × Json)) : List Json :=
  (props.filter (fun p => ((p.2.lookup "required").map jsTruthy).getD false)).map
    (fun p => .str p.1)

/-- The non-array case of `generateSchemaFromType`
(api-response.decorator.ts): a basic type becomes `{ type }`; a class with
accumulated properties is inlined as a full object schema; a class without
properties falls through to `{ type: "object" }`. -/
def schemaFromTypeBase (h : PropHeap) : SchemaType → Json
  | .primitive t => .obj [("type", .str t)]
  | .dto c =>
      let props := getApiProperties h c
      if props.isEmpty then .obj [("type", .str "object")]
      else .obj [("type", .str "object"), ("properties", .obj props),
                 ("required", .arr (requiredKeys props))]

/-- `generateSchemaFromType(type, isArray)`. -/
def generateSchemaFromType (h : PropHeap) (t : SchemaType) (isArr : Bool) : Json :=
  if isArr then .obj [("type", .str "array"), ("items", schemaFromTypeBase h t)]
  else schemaFromTypeBase h t

structure ApiQueryOptions where
  name : String
  description : Option String := none
  required : Option Bool := none
  type : Option String := none
  format : Option String := none
  exampleVal : Option Json := none
  enum : Option (List Json) := none
  pattern : Option String := none
  minimum : Option Int := none
  maximum : Option Int := none
  minLength : Option Int := none
  maxLength : Option Int := none
  allowEmptyValue : Option Bool := none
  allowReserved : Option Bool := none
  explode : Option Bool := none
  style : Option String := none

/-- The `querySchema` literal of `ApiQuery` after both
"remove undefined values" loops; `required: options.required || false`. -/
def apiQueryFact (o : ApiQueryOptions) : Json :=
  .obj ([("name", .str o.name), ("in", .str "query")]
    ++ optEntry "description" (o.description.map .str)
    ++ [("required", .bool (o.required.getD false))]
    ++ [("schema", .obj ([("type", .str (o.type.getD "string"))]
        ++ optEntry "format" (o.format.map .str)
        ++ optEntry "example" o.exampleVal
        ++ optEntry "enum" (o.enum.map .arr)
        ++ optEntry "pattern" (o.pattern.map .str)
        ++ optEntry "minimum" (o.minimum.map .num)
        ++ optEntry "maximum" (o.maximum.map .num)
        ++ optEntry "minLength" (o.minLength.map .num)
        ++ optEntry "maxLength" (o.maxLength.map .num)))]
    ++ optEntry "allowEmptyValue" (o.allowEmptyValue.map .bool)
    ++ optEntry "allowReserved" (o.allowReserved.map .bool)
    ++ optEntry "explode" (o.explode.map .bool)
    ++ optEntry "style" (o.style.map .str))

structure ApiParamOptions where
  name : String
  description : Option String := none
  required : Option Bool := none
  type : Option String := none
  format : Option String := none
  exampleVal : Option Json := none
  enum : Option (List Json) := none
  pattern : Option String := none
  minimum : Option Int := none
  maximum : Option Int := none
  minLength : Option Int := none
  maxLength : Option Int := none

/-- The `paramSchema` literal of `ApiParam`: only the nested `schema`
object is cleaned of undefined values, the top level is not, so an absent
description stays as an `undefined`-valued key;
`required: options.required !== false`. -/
def apiParamFact (o : ApiParamOptions) : Json :=
  .obj ([("name", .str o.name), ("in", .str "path")]
    ++ undefEntry "description" (o.description.map .str)
    ++ [("required", .bool (!(o.required == some false)))]
    ++ [("schema", .obj ([("type", .str (o.type.getD "string"))]
        ++ optEntry "format" (o.format.map .str)
        ++ optEntry "example" o.exampleVal
        ++ optEntry "enum" (o.enum.map .arr)
        ++ optEntry "pattern" (o.pattern.map .str)
        ++ optEntry "minimum" (o.minimum.map .num)
        ++ optEntry "maximum" (o.maximum.map .num)
        ++ optEntry "minLength" (o.minLength.map .num)
        ++ optEntry "maxLength" (o.maxLength.map .num)))])

structure ApiResponseOptions where
  /-- `status` is required by `ApiResponse` itself; the predefined wrappers
  (`ApiOkResponse`, ...) take `Omit<..., "status">` options and set it
  themselves, so the default here is always overridden. -/
  status : Nat := 0
  description : Option String := none
  type : Option SchemaType := none
  isArray : Option Bool := none
  exampleVal : Option Json := none
  headers : Option Json := none

/-- The `responseSchema` of `ApiResponse`: the schema is computed by
`generateSchemaFromType` at decoration time (inlining the class's current
property map); falsy `schema` / `example` / `headers` keys are deleted,
while `description` stays even when undefined. -/
def responseFact (h : PropHeap) (o : ApiResponseOptions) : Json :=
  let schemaOpt := o.type.map (fun t => generateSchemaFromType h t (o.isArray.getD false))
  let exampleOpt := match o.exampleVal with
    | some j => if jsTruthy j then some j else none
    | none => none
  let headersOpt := match o.headers with
    | some j => if jsTruthy j then some j else none
    | none => none
  .obj (undefEntry "description" (o.description.map .str)
    ++ [("content", .obj [("application/json",
          .obj (optEntry "schema" schemaOpt ++ optEntry "example" exampleOpt))])]
    ++ optEntry "headers" headersOpt)

/-- `existingResponses[options.status] = responseSchema` on an object with
integer-like keys: JS orders such keys ascending, and re-declaring a status
replaces its entry. -/
def insertResponse (status : Nat) (v : Json) :
    List (Nat × Json) → List (Nat × Json)
  | [] => [(status, v)]
  | (k, w) :: rest =>
      if status < k then (status, v) :: (k, w) :: rest
      else if status == k then (status, v) :: rest
      else (k, w) :: insertResponse status v rest

structure ApiBodyOptions where
  type : Option SchemaType := none
  description : Option String := none
  required : Option Bool := none
  content : Option Json := none
  examples : Option Json := none

/-- The `bodySchema` of `ApiBody`: note that a class-valued `type` is stored
as the raw class inside `{ type: options.type }` (to be replaced by a `$ref`
later, in `processSchemaReferences`), and that `examples` stays as an
`undefined`-valued key inside the default content object.  The top-level
cleanup loop removes an undefined `description`. -/
def bodyFact (o : ApiBodyOptions) : Json :=
  let typeVal : Json := match o.type with
    | some (.dto c) => .cls c
    | some (.primitive s) => .str s
    | none => .str "object"
  .obj (optEntry "description" (o.description.map .str)
    ++ [("required", .bool (o.required.getD false))]
    ++ [("content", o.content.getD (.obj [("application/json",
          .obj [("schema", .obj [("type", typeVal)]),
                ("examples", (o.examples.getD .undef))])]))])

structure ApiOperationOptions where
  summary : Option String := none
  description : Option String := none
  tags : Option (List String) := none
  deprecated : Option Bool := none
  externalDocs : Option Json := none

/-- The `operationSchema` of `ApiOperation` after undefined-value removal. -/
def operationFields (o : ApiOperationOptions) : List (String × Json) :=
  optEntry "summary" (o.summary.map .str)
    ++ optEntry "description" (o.description.map .str)
    ++ optEntry "tags" ((o.tags.map (fun ts => Json.arr (ts.map .str))))
    ++ optEntry "deprecated" (o.deprecated.map .bool)
    ++ optEntry "externalDocs" o.externalDocs

/-- `swagger:route` metadata (route.decorator.ts). -/
structure RouteMeta where
  path : String
  method : String
  middlewares : Option (List String) := none

/-- All method-level metadata attached to one (class, member) pair.  A `none`
field means the corresponding `Reflect.getMetadata` call returns
`undefined`. -/
structure MethodMeta where
  route : Option RouteMeta := none
  operation : Option ApiOperationOptions := none
  queries : Option (List Json) := none
  params : Option (List Json) := none
  responses : Option (List (Nat × Json)) := none
  body : Option Json := none

/-- The process-wide metadata store: the `ApiProperty` heap, per-(class,
member) method metadata, and per-class `ApiTags` metadata, keyed by
controller class. -/
structure Store where
  heap : PropHeap := {}
  meth : List ((String × String) × MethodMeta) := []
  tagsMap : List (String × List String) := []

def emptyStore : Store := {}

/-- Does an entry belong to the (class, member) key? -/
def metaKeyMatch (c m : String) (p : (String × String) × MethodMeta) : Bool :=
  p.1.1 == c && p.1.2 == m

/-- Raw method-metadata lookup. -/
def findMeta? (s : Store) (c m : String) : Option MethodMeta :=
  ((s.meth.find? (metaKeyMatch c m)).map (·.2))

def findMeta (s : Store) (c m : String) : MethodMeta :=
  (findMeta? s c m).getD {}

/-- Update the metadata of one (class, member) key. -/
def updateMeta (s : Store) (c m : String) (f : MethodMeta → MethodMeta) : Store :=
  if s.meth.any (metaKeyMatch c m) then
    { s with meth := s.meth.map (fun p =>
        if metaKeyMatch c m p then (p.1, f p.2) else p) }
  else { s with meth := s.meth ++ [((c, m), f {})] }

/-! ### The decorator functions, as `Store → Store` updates.
Each mirrors one decorator in the source; `c`/`m` name the class and member
the decorator is written on. -/

def ApiQuery (o : ApiQueryOptions) (c m : String) (s : Store) : Store :=
  updateMeta s c m (fun mm =>
    { mm with queries := some (mm.queries.getD [] ++ [apiQueryFact o]) })

def ApiParam (o : ApiParamOptions) (c m : String) (s : Store) : Store :=
  updateMeta s c m (fun mm =>
    { mm with params := some (mm.params.getD [] ++ [apiParamFact o]) })

def ApiResponse (o : ApiResponseOptions) (c m : String) (s : Store) : Store :=
  updateMeta s c m (fun mm =>
    let rs := insertResponse o.status (responseFact s.heap o) (mm.responses.getD [])
    { mm with responses := some rs })

def ApiOkResponse (o : ApiResponseOptions) (c m : String) (s : Store) : Store :=
  ApiResponse { o with status := 200 } c m s

def ApiCreatedResponse (o : ApiResponseOptions) (c m : String) (s : Store) : Store :=
  ApiResponse { o with status := 201 } c m s

def ApiBadRequestResponse (o : ApiResponseOptions) (c m : String) (s : Store) : Store :=
  ApiResponse { o with status := 400, description := some (o.description.getD "Bad Request") } c m s

def ApiNotFoundResponse (o : ApiResponseOptions) (c m : String) (s : Store) : Store :=
  ApiResponse { o with status := 404, description := some (o.description.getD "Not Found") } c m s

def ApiConflictResponse (o : ApiResponseOptions) (c m : String) (s : Store) : Store :=
  ApiResponse { o with status := 409, description := some (o.description.getD "Conflict") } c m s

def ApiBody (o : ApiBodyOptions) (c m : String) (s : Store) : Store :=
  updateMeta s c m (fun mm => { mm with body := some (bodyFact o) })

def ApiOperation (o : ApiOperationOptions) (c m : String) (s : Store) : Store :=
  updateMeta s c m (fun mm => { mm with operation := some o })

def ApiTags (tags : List String) (c : String) (s : Store) : Store :=
  if s.tagsMap.any (fun p => p.1 == c) then
    { s with tagsMap := s.tagsMap.map (fun p => if p.1 == c then (p.1, tags) else p) }
  else { s with tagsMap := s.tagsMap ++ [(c, tags)] }

/-- `createRouteDecorator(method, path)`: stores `{ path, method:
method.toUpperCase(), middlewares }`, replacing any earlier binding. -/
def createRouteDecorator (method path : String) (middlewares : Option (List String))
    (c m : String) (s : Store) : Store :=
  updateMeta s c m (fun mm =>
    { mm with route := some ⟨path, upperString method, middlewares⟩ })

def Get (path : String) (c m : String) (s : Store) : Store :=
  createRouteDecorator "get" path none c m s

def Post (path : String) (middlewares : Option (List String)) (c m : String)
    (s : Store) : Store :=
  createRouteDecorator "post" path middlewares c m s

def Put (path : String) (middlewares : Option (List String)) (c m : String)
    (s : Store) : Store :=
  createRouteDecorator "put" path middlewares c m s

def Delete (path : String) (c m : String) (s : Store) : Store :=
  createRouteDecorator "delete" path none c m s

/-! ### The metadata lookup functions (`get…` accessors of the decorator
modules); each returns the stored fact or the empty value of its kind. -/

def getApiQueries (s : Store) (c m : String) : List Json :=
  (((findMeta? s c m).bind (·.queries)).getD [])

def getApiParams (s : Store) (c m : String) : List Json :=
  (((findMeta? s c m).bind (·.params)).getD [])

def getApiResponses (s : Store) (c m : String) : List (Nat × Json) :=
  (((findMeta? s c m).bind (·.responses)).getD [])

def getApiBody (s : Store) (c m : String) : Json :=
  (((findMeta? s c m).bind (·.body)).getD (.obj []))

def getApiOperation (s : Store) (c m : String) : ApiOperationOptions :=
  (((findMeta? s c m).bind (·.operation)).getD {})

def getRouteMetadata (s : Store) (c m : String) : Option RouteMeta :=
  ((findMeta? s c m).bind (·.route))

def getApiTags (s : Store) (c : String) : List String :=
  (((s.tagsMap.find? (fun p => p.1 == c)).map (·.2)).getD [])

/-! ## Route binding (controller-base.ts) -/

/-- One entry of `SwaggerGenerator.routes` (`RouteInfo`): `handlerName` is
`handler.name` (the member name) and `controllerName` is
`controller.constructor.name`, which is how later lookups key back into the
metadata store. -/
structure RouteInfo where
  path : String
  method : String
  handlerName : String
  controllerName : String

/-- The function-valued members of an Express `Router` that the
`this.router[method]` / `typeof === "function"` guard of `setupRoutes` can
find: the per-verb registrars plus the generic router methods. -/
def routerVerbs : List String :=
  ["get", "post", "put", "delete", "patch", "head", "options", "all",
   "use", "param", "route"]

/-- `ControllerBase.setupRoutes`: walk the controller's own methods in
declaration order; for each one with route metadata, register it on the
router only when `router[method.toLowerCase()]` is a function, but
unconditionally record the route in the controller's `SwaggerGenerator`.
Returns (router registrations, recorded swagger routes). -/
def setupRoutes (controllerName : String) (methodNames : List String)
    (s : Store) : List (String × String) × List RouteInfo :=
  methodNames.foldl (fun acc m =>
    match getRouteMetadata s controllerName m with
    | none => acc
    | some rm =>
        let method := lowerString rm.method
        let regs := if routerVerbs.contains method
          then acc.1 ++ [(method, rm.path)] else acc.1
        (regs, acc.2 ++ [⟨rm.path, method, m, controllerName⟩])) ([], [])

/-! ## Operation assembly (swagger-generator.ts) -/

/-- The synthesized default 200 response of `generateOperation`. -/
def defaultSuccessResponse : Json :=
  .obj [("description", .str "Success"),
        ("content", .obj [("application/json",
            .obj [("schema", .obj [("type", .str "object")])])])]

/-- Does `Object.keys(body).length > 0` hold? -/
def hasKeys : Json → Bool
  | .obj [] => false
  | .obj (_ :: _) => true
  | _ => false

/-- The final cleanup loop of `generateOperation`: delete undefined-valued
top-level keys, except `tags`. -/
def dropUndefExceptTags (fields : List (String × Json)) : List (String × Json) :=
  fields.filter (fun p => p.1 == "tags" ||
    (match p.2 with | .undef => false | _ => true))

/-- `SwaggerGenerator.generateOperation(route)`: spread the operation fact,
position the `responses` key, then append `tags`, `parameters`
(path params before query params) and `requestBody` when present, fill the
responses (synthesizing the default 200 when none were declared), and run
the cleanup loop. -/
def generateOperation (s : Store) (r : RouteInfo) : Json :=
  let mm := findMeta s r.controllerName r.handlerName
  let tags := getApiTags s r.controllerName
  let responses := mm.responses.getD []
  let respFields : List (String × Json) :=
    if responses.isEmpty then [("200", defaultSuccessResponse)]
    else responses.map (fun p => (natKey p.1, p.2))
  let o1 := objSetFields (operationFields (mm.operation.getD {})) "responses"
    (.obj respFields)
  let o2 := if tags.isEmpty then o1
    else objSetFields o1 "tags" (.arr (tags.map .str))
  let ps := mm.params.getD [] ++ mm.queries.getD []
  let o3 := if ps.isEmpty then o2 else objSetFields o2 "parameters" (.arr ps)
  let body := mm.body.getD (.obj [])
  let o4 := if hasKeys body then objSetFields o3 "requestBody" body else o3
  .obj (dropUndefExceptTags o4)

/-- First-seen-order set insertion (`Set<any>` iteration order). -/
def addUniqueClass (acc : List ClassId) (c : ClassId) : List ClassId :=
  if acc.contains c then acc else acc ++ [c]

def addUniqueStr (acc : List String) (s : String) : List String :=
  if acc.contains s then acc else acc ++ [s]

/-- `SwaggerGenerator.collectDtoClasses(schema, dtoClasses)`: a `$ref` schema
contributes nothing; a function-valued `type` is collected; arrays recurse
into `items`; object schemas scan their properties shallowly (array-valued
properties recurse into their `items`, function-valued `type`s are
collected).  Fuelled recursion; every schema in this development has depth
well below any fuel used. -/
def collectDtoClasses : Nat → Json → List ClassId → List ClassId
  | 0, _, acc => acc
  | fuel + 1, schema, acc =>
    if (schema.lookup "$ref").isSome then acc
    else match schema.lookup "type" with
    | some (.cls c) => addUniqueClass acc c
    | some (.str tn) =>
        if tn == "array" then
          match schema.lookup "items" with
          | some items => collectDtoClasses fuel items acc
          | none => acc
        else if tn == "object" then
          match schema.lookup "properties" with
          | some (.obj props) =>
              props.foldl (fun a p =>
                match p.2.lookup "type" with
                | some (.str ptn) =>
                    if ptn == "array" then
                      match p.2.lookup "items" with
                      | some items => collectDtoClasses fuel items a
                      | none => a
                    else a
                | some (.cls pc) => addUniqueClass a pc
                | _ => a) acc
          | _ => acc
        else acc
    | _ => acc
  termination_by structural fuel _ _ => fuel

/-- The `{ type: "object", properties, required }` component schema built
from a DTO class's property map (`generateSchemas`). -/
def dtoComponentSchema (props : List (String × Json)) : Json :=
  .obj [("type", .str "object"), ("properties", .obj props),
        ("required", .arr (requiredKeys props))]

/-- `SwaggerGenerator.generateSchemas()`: collect DTO classes from every
route's response schemas (statuses in ascending order, as `Object.values`
yields them) and request-body schema, then emit one component schema per
collected class that has a non-empty property map. -/
def generateSchemas (s : Store) (routes : List RouteInfo) : List (String × Json) :=
  let classes := routes.foldl (fun acc r =>
    let mm := findMeta s r.controllerName r.handlerName
    let acc := (mm.responses.getD []).foldl (fun a p =>
      match p.2.lookupPath ["content", "application/json", "schema"] with
      | some sch => collectDtoClasses 32 sch a
      | none => a) acc
    match mm.body with
    | some b =>
        (match b.lookupPath ["content", "application/json", "schema"] with
         | some sch => collectDtoClasses 32 sch acc
         | none => acc)
    | none => acc) []
  classes.foldl (fun acc c =>
    let props := getApiProperties s.heap c
    if props.isEmpty then acc
    else acc ++ [(c.className, dtoComponentSchema props)]) []

/-! ## Document assembly (swagger-config.ts / swagger.service.ts) -/

/-- The Express-to-OpenAPI path rewrite of `generateSpec`: every `:` followed
by a non-empty run of non-`/` characters becomes that run wrapped in braces
(the global regex replace of the source).  Fuelled character scan. -/
def convertChars : Nat → List Char → List Char
  | 0, cs => cs
  | _ + 1, [] => []
  | fuel + 1, ':' :: rest =>
      let seg := rest.takeWhile (fun c => c ≠ '/')
      if seg.isEmpty then ':' :: convertChars fuel rest
      else '{' :: (seg ++ '}' :: convertChars fuel (rest.drop seg.length))
  | fuel + 1, c :: rest => c :: convertChars fuel rest
  termination_by structural fuel _ => fuel

def convertPath (s : String) : String :=
  String.mk (convertChars (s.length + 1) s.data)

/-- The hard-coded `routeMappings` of `SwaggerService`
(controllerName, modulePath, swaggerPath). -/
def routeMappings : List (String × String × String) :=
  [("HealthController", "/health", "/api/health"),
   ("UserController", "/users", "/api/users")]

/-- The path key `generateSpec` computes for one recorded route: the
controller's mapped swagger path (default `/api`), with the route's own
path appended in brace syntax unless it is exactly `"/"`. -/
def pathKeyFor (r : RouteInfo) : String :=
  let base := (((routeMappings.find? (fun p => p.1 == r.controllerName)).map
    (·.2.2)).getD "/api")
  if r.path == "/" then base else base ++ convertPath r.path

/-- `spec.paths[swaggerPath][method] = operation` with JS object-update
semantics on both levels. -/
def pathsInsert : List (String × Json) → String → String → Json →
    List (String × Json)
  | [], pk, m, op => [(pk, .obj [(m, op)])]
  | (k, v) :: rest, pk, m, op =>
      if k == pk then
        (k, match v with | .obj fs => Json.obj (objSetFields fs m op) | other => other)
          :: rest
      else (k, v) :: pathsInsert rest pk m op

/-- The `$ref` replacement of `processSchemaReferences` on one request-body
or response fact: when `fact.content["application/json"].schema.type` is a
truthy function (class) value, the whole schema object is replaced —
in place, mutating the stored metadata fact — by
`\x7b $ref: "#/components/schemas/<ClassName>" \x7d`. -/
def processContentFact (j : Json) : Json :=
  match j.lookupPath ["content", "application/json", "schema", "type"] with
  | some (.cls c) =>
      j.modify "content" (fun ct => ct.modify "application/json" (fun aj =>
        aj.modify "schema" (fun _ =>
          .obj [("$ref", .str ("#/components/schemas/" ++ c.className))])))
  | _ => j

/-- The store mutation performed by `processSchemaReferences`: every
operation placed in the spec aliases its stored request-body and response
facts, so the replacement above persists in the metadata store. -/
def processRouteRefs (s : Store) (r : RouteInfo) : Store :=
  updateMeta s r.controllerName r.handlerName (fun mm =>
    { mm with
      body := mm.body.map processContentFact
      responses := mm.responses.map (fun rs =>
        rs.map (fun p => (p.1, processContentFact p.2))) })

def processAllRoutes (s : Store) (gens : List (List RouteInfo)) : Store :=
  gens.foldl (fun acc routes => routes.foldl processRouteRefs acc) s

/-- The merged `SwaggerConfig` (defaults overridden by the config the
`SharedModule` passes to `SwaggerService`). -/
structure SwaggerConfig where
  title : String := "API Documentation"
  version : String := "1.0.0"
  description : String := "API Documentation"
  serverUrl : String := "http://localhost:3000"
  serverDescription : String := "Development server"

/-- Paths and first-seen tag names accumulated over every generator's
routes, in recording order (`generateSpec`'s merge loop). -/
def buildPathsAndTags (s : Store) (gens : List (List RouteInfo)) :
    List (String × Json) × List String :=
  gens.foldl (fun acc routes => routes.foldl (fun acc2 r =>
    let method := lowerString r.method
    let op := generateOperation s r
    let paths := pathsInsert acc2.1 (pathKeyFor r) method op
    let tagNames := match op.lookup "tags" with
      | some (.arr ts) => ts.foldl (fun tn t =>
          match t with | .str nm => addUniqueStr tn nm | _ => tn) acc2.2
      | _ => acc2.2
    (paths, tagNames)) acc) ([], [])

/-- `Object.assign(spec.components.schemas, schemas)` over all generators. -/
def mergeSchemas (s : Store) (gens : List (List RouteInfo)) : List (String × Json) :=
  gens.foldl (fun acc routes =>
    (generateSchemas s routes).foldl (fun a p => objSetFields a p.1 p.2) acc) []

/-- `createBaseSpec` with the computed members filled in (`paths`,
`components.schemas` and `tags` are mutated in place by `generateSpec`,
keeping the literal's key order). -/
def assembleSpec (cfg : SwaggerConfig) (paths : List (String × Json))
    (schemas : List (String × Json)) (tagNames : List String) : Json :=
  .obj [("openapi", .str "3.0.3"),
        ("info", .obj [("title", .str cfg.title), ("version", .str cfg.version),
                       ("description", .str cfg.description)]),
        ("servers", .arr [.obj [("url", .str cfg.serverUrl),
                                ("description", .str cfg.serverDescription)]]),
        ("paths", .obj paths),
        ("components", .obj [("schemas", .obj schemas)]),
        ("tags", .arr (tagNames.map (fun t => Json.obj [("name", .str t)])))]

/-- The state a `SwaggerService` closes over: the process-wide metadata
store and the registered generators' recorded routes. -/
structure ServiceState where
  store : Store
  gens : List (List RouteInfo)

/-- `SwaggerService.generateSpec()`.  The source builds the paths, tag list
and component schemas from the current facts and then runs
`processSchemaReferences`, which replaces class-valued request-body schemas
by `$ref` objects *in the shared fact objects themselves*.  Building the
paths from the post-replacement store is observationally identical (the
replacement is exactly the transformation applied to the already-placed
operations, which alias the same fact objects), while the component schemas
must be computed from the pre-replacement facts — `generateSchemas` runs
before `processSchemaReferences`.  The updated store is returned alongside
the document, modelling the persistent mutation. -/
def generateSpec (cfg : SwaggerConfig) (st : ServiceState) : Json × ServiceState :=
  let schemas := mergeSchemas st.store st.gens
  let store2 := processAllRoutes st.store st.gens
  let (paths, tagNames) := buildPathsAndTags store2 st.gens
  (assembleSpec cfg paths schemas tagNames, { st with store := store2 })

/-- `SwaggerService.getSpecAsJson()` = `JSON.stringify(this.generateSpec(),
null, 2)` (indentation whitespace omitted, see `Json.serialize`). -/
def getSpecAsJson (cfg : SwaggerConfig) (st : ServiceState) : String :=
  (generateSpec cfg st).1.serialize

/-! ## The repository's concrete declarations

The `ApiProperty` decorations run at module-load time, in import order:
the error-response DTOs (re-exported by the swagger index, imported first by
`user.controller.ts`), then the user DTOs (`user-response.dto.ts` first
loads `TimestampDto` from `shares/dto`), then `UserListResponseDto`,
`CreateUserDto`, `UpdateUserDto`.  Each class's fields decorate in
declaration order.  The `DesignType` argument is the `design:type` the
TypeScript compiler emits for each field (`string | null` and optional
fields serialize to their base constructor). -/

def uuidExample : String := "123e4567-e89b-12d3-a456-426614174000"

def repoHeap : PropHeap :=
  ({} : PropHeap)
  -- ErrorResponseDto
  |> ApiProperty
      { description := some "Error code",
        exampleVal := some (.str "NOT_FOUND"), required := some true }
      DesignType.string ClassId.errorResponseDto "error"
  |> ApiProperty
      { description := some "Error message",
        exampleVal := some (.str "Resource not found"), required := some true }
      DesignType.string ClassId.errorResponseDto "message"
  |> ApiProperty
      { description := some "Error details (optional)",
        exampleVal := some (.arr []), required := some false }
      DesignType.array ClassId.errorResponseDto "details"
  -- ValidationErrorResponseDto extends ErrorResponseDto
  |> ApiProperty
      { description := some "Validation error details",
        exampleVal := some (.arr [.obj [("field", .str "email"),
          ("message", .str "Email is required"), ("value", .str "")]]),
        required := some true }
      DesignType.array ClassId.validationErrorResponseDto "details"
  -- ConflictErrorResponseDto extends ErrorResponseDto
  |> ApiProperty
      { description := some "Conflict error code",
        exampleVal := some (.str "EMAIL_EXISTS"), required := some true }
      DesignType.string ClassId.conflictErrorResponseDto "error"
  -- TimestampDto
  |> ApiProperty
      { description := some "Created time",
        exampleVal := some (.str "2023-01-01T00:00:00.000Z"),
        format := some "date-time" }
      DesignType.string ClassId.timestampDto "createdAt"
  |> ApiProperty
      { description := some "Updated time",
        exampleVal := some (.str "2023-01-01T00:00:00.000Z"),
        format := some "date-time" }
      DesignType.string ClassId.timestampDto "updatedAt"
  -- UserResponseDto extends TimestampDto
  |> ApiProperty
      { description := some "User ID", exampleVal := some (.str uuidExample) }
      DesignType.string ClassId.userResponseDto "id"
  |> ApiProperty
      { description := some "User email",
        exampleVal := some (.str "user@example.com") }
      DesignType.string ClassId.userResponseDto "email"
  |> ApiProperty
      { description := some "User name", exampleVal := some (.str "John Doe") }
      DesignType.string ClassId.userResponseDto "name"
  |> ApiProperty
      { description := some "User activation status",
        exampleVal := some (.bool true) }
      DesignType.boolean ClassId.userResponseDto "isActive"
  -- UserListResponseDto
  |> ApiProperty
      { description := some "User list", type := some "array",
        items := some (.obj [("type", .str "object")]) }
      DesignType.array ClassId.userListResponseDto "data"
  |> ApiProperty
      { description := some "Total count", exampleVal := some (.num 100) }
      DesignType.number ClassId.userListResponseDto "total"
  |> ApiProperty
      { description := some "Current page", exampleVal := some (.num 1) }
      DesignType.number ClassId.userListResponseDto "page"
  |> ApiProperty
      { description := some "Items per page", exampleVal := some (.num 10) }
      DesignType.number ClassId.userListResponseDto "limit"
  -- CreateUserDto
  |> ApiProperty
      { description := some "User email",
        exampleVal := some (.str "user@example.com"), required := some true }
      DesignType.string ClassId.createUserDto "email"
  |> ApiProperty
      { description := some "User name", exampleVal := some (.str "John Doe"),
        required := some true, minLength := some 2, maxLength := some 50 }
      DesignType.string ClassId.createUserDto "name"
  |> ApiPropertyOptional
      { description := some "User password",
        exampleVal := some (.str "password123"),
        minLength := some 6, maxLength := some 100 }
      DesignType.string ClassId.createUserDto "password"
  |> ApiPropertyOptional
      { description := some "User activation status",
        exampleVal := some (.bool true) }
      DesignType.boolean ClassId.createUserDto "isActive"
  -- UpdateUserDto
  |> ApiPropertyOptional
      { description := some "User email",
        exampleVal := some (.str "user@example.com") }
      DesignType.string ClassId.updateUserDto "email"
  |> ApiPropertyOptional
      { description := some "User name", exampleVal := some (.str "John Doe"),
        minLength := some 2, maxLength := some 50 }
      DesignType.string ClassId.updateUserDto "name"
  |> ApiPropertyOptional
      { description := some "User activation status",
        exampleVal := some (.bool true) }
      DesignType.boolean ClassId.updateUserDto "isActive"

def CUser : String := "UserController"

/-- The method decorators of `UserController`, in execution order: compiled
decorator lists are applied member by member in declaration order, and
within one member bottom-up (the `__decorate` helper applies the decorator
array in reverse), with the class decorator (`ApiTags`) last. -/
def repoStore : Store :=
  ({ heap := repoHeap } : Store)
  -- getUsers (bottom decorator first)
  |> ApiBadRequestResponse
      { description := some "Request parameter error",
        type := some (.dto .errorResponseDto) }
      CUser "getUsers"
  |> ApiOkResponse
      { description := some "Successfully retrieved user list",
        type := some (.dto .userListResponseDto) }
      CUser "getUsers"
  |> ApiQuery
      { name := "limit", description := some "Items per page",
        type := some "integer", exampleVal := some (.num 10),
        minimum := some 1, maximum := some 100 }
      CUser "getUsers"
  |> ApiQuery
      { name := "page", description := some "Page number",
        type := some "integer", exampleVal := some (.num 1),
        minimum := some 1 }
      CUser "getUsers"
  |> ApiOperation
      { summary := some "Get user list",
        description := some "Get all user information with pagination" }
      CUser "getUsers"
  |> Get "" CUser "getUsers"
  -- getUserById
  |> ApiNotFoundResponse
      { description := some "User not found",
        type := some (.dto .errorResponseDto) }
      CUser "getUserById"
  |> ApiOkResponse
      { description := some "Successfully retrieved user information",
        type := some (.dto .userResponseDto) }
      CUser "getUserById"
  |> ApiParam
      { name := "id", description := some "User ID", type := some "string",
        exampleVal := some (.str uuidExample) }
      CUser "getUserById"
  |> ApiOperation
      { summary := some "Get single user",
        description := some "Get user detailed information by user ID" }
      CUser "getUserById"
  |> Get "/:id" CUser "getUserById"
  -- createUser
  |> ApiConflictResponse
      { description := some "Email already exists",
        type := some (.dto .conflictErrorResponseDto) }
      CUser "createUser"
  |> ApiBadRequestResponse
      { description := some "Request data validation failed",
        type := some (.dto .validationErrorResponseDto) }
      CUser "createUser"
  |> ApiCreatedResponse
      { description := some "User created successfully",
        type := some (.dto .userResponseDto) }
      CUser "createUser"
  |> ApiBody
      { type := some (.dto .createUserDto),
        description := some "User creation data" }
      CUser "createUser"
  |> ApiOperation
      { summary := some "Create user", description := some "Create a new user" }
      CUser "createUser"
  |> Post "" (some ["validateDto(CreateUserDto)"]) CUser "createUser"
  -- updateUser
  |> ApiConflictResponse
      { description := some "Email is already used by another user",
        type := some (.dto .conflictErrorResponseDto) }
      CUser "updateUser"
  |> ApiBadRequestResponse
      { description := some "Request data validation failed",
        type := some (.dto .validationErrorResponseDto) }
      CUser "updateUser"
  |> ApiNotFoundResponse
      { description := some "User not found",
        type := some (.dto .errorResponseDto) }
      CUser "updateUser"
  |> ApiOkResponse
      { description := some "User updated successfully",
        type := some (.dto .userResponseDto) }
      CUser "updateUser"
  |> ApiBody
      { type := some (.dto .updateUserDto),
        description := some "User update data" }
      CUser "updateUser"
  |> ApiParam
      { name := "id", description := some "User ID", type := some "string",
        exampleVal := some (.str uuidExample) }
      CUser "updateUser"
  |> ApiOperation
      { summary := some "Update user",
        description := some "Update specified user information" }
      CUser "updateUser"
  |> Put "/:id" (some ["validateDto(UpdateUserDto)"]) CUser "updateUser"
  -- deleteUser
  |> ApiNotFoundResponse
      { description := some "User not found",
        type := some (.dto .errorResponseDto) }
      CUser "deleteUser"
  |> ApiOkResponse
      { description := some "User deleted successfully",
        exampleVal := some (.obj [("message", .str "User deleted successfully")]) }
      CUser "deleteUser"
  |> ApiParam
      { name := "id", description := some "User ID", type := some "string",
        exampleVal := some (.str uuidExample) }
      CUser "deleteUser"
  |> ApiOperation
      { summary := some "Delete user", description := some "Delete specified user" }
      CUser "deleteUser"
  |> Delete "/:id" CUser "deleteUser"
  -- class decorator
  |> ApiTags ["Users"] CUser

/-- `Object.getOwnPropertyNames(UserController.prototype)` minus the
constructor: the five handler methods in declaration order. -/
def userMethodNames : List String :=
  ["getUsers", "getUserById", "createUser", "updateUser", "deleteUser"]

/-- Route binding performed by the `ControllerBase` constructor. -/
def userSetup : List (String × String) × List RouteInfo :=
  setupRoutes CUser userMethodNames repoStore

def userRoutes : List RouteInfo := userSetup.2

/-- The `SwaggerConfig` the `SharedModule` passes to the service, merged
over the defaults. -/
def appConfig : SwaggerConfig :=
  { title := "User Management API", version := "0.1.0",
    description := "User Management API Documentation",
    serverUrl := "http://localhost:3000",
    serverDescription := "Development Environment" }

/-- The service state right after startup, with the user controller's
generator registered.  (The health controller's generator contributes only
the `/api/health` path and the `Health` tag — no request bodies and hence
no component schemas — so it is immaterial to the claims below and not
modelled; its `HealthResponseDto` example values include a float, which the
integer-valued `Json.num` does not represent.) -/
def appState : ServiceState := ⟨repoStore, [userRoutes]⟩

/-- First invocation of document generation. -/
def genOne : Json × ServiceState := generateSpec appConfig appState

def docOne : Json := genOne.1

/-- Second invocation, on the state the first one left behind. -/
def genTwo : Json × ServiceState := generateSpec appConfig genOne.2

def docTwo : Json := genTwo.1

/-- Third invocation. -/
def genThree : Json × ServiceState := generateSpec appConfig genTwo.2

def docThree : Json := genThree.1

/-! ## Auxiliary declaration sets

Small, self-contained declaration sets used to exercise the same generation
pipeline where the full repository document would be too large for kernel
string comparison, plus a scenario for `isArray` responses (which the
repository's controllers declare nowhere) and one for malformed route
metadata. -/

/-- A single `CreateUserDto.email` property declaration. -/
def miniHeap : PropHeap :=
  ({} : PropHeap)
  |> ApiProperty
      { description := some "User email",
        exampleVal := some (.str "user@example.com"), required := some true }
      DesignType.string ClassId.createUserDto "email"

/-- One controller method, declared `@Post("")` with
`@ApiBody({ type: CreateUserDto, description: "User creation data" })`. -/
def miniStore : Store :=
  ({ heap := miniHeap } : Store)
  |> ApiBody
      { type := some (.dto .createUserDto),
        description := some "User creation data" }
      CUser "createUser"
  |> Post "" none CUser "createUser"

def miniState : ServiceState :=
  ⟨miniStore, [(setupRoutes CUser ["createUser"] miniStore).2]⟩

def miniOne : Json × ServiceState := generateSpec appConfig miniState

def miniTwo : Json × ServiceState := generateSpec appConfig miniOne.2

def miniThree : Json × ServiceState := generateSpec appConfig miniTwo.2

/-- A method declared with
`@ApiResponse({ status: 200, description: "Error list",
type: ErrorResponseDto, isArray: true })` over the repository's decorated
`ErrorResponseDto`. -/
def arrStore : Store :=
  ({ heap := repoHeap } : Store)
  |> ApiResponse
      { status := 200, description := some "Error list",
        type := some (.dto .errorResponseDto), isArray := some true }
      CUser "listErrors"
  |> Get "/errors" CUser "listErrors"

def arrState : ServiceState :=
  ⟨arrStore, [(setupRoutes CUser ["listErrors"] arrStore).2]⟩

def arrDoc : Json := (generateSpec appConfig arrState).1

/-- Route metadata carrying an unrecognized HTTP verb (nothing in the
decorator layer produces one, but `setupRoutes` guards against it). -/
def badMeta : MethodMeta := { route := some ⟨"/x", "FOO", none⟩ }

def badStore : Store := { meth := [(("BadController", "m"), badMeta)] }

/-! ## Helpers for stating the claims -/

/-- The `parameters` array of the operation at `paths[path][verb]`. -/
def docParams (doc : Json) (path verb : String) : List Json :=
  match doc.lookupPath ["paths", path, verb, "parameters"] with
  | some (.arr xs) => xs
  | _ => []

/-- The `name` string of a parameter entry. -/
def paramName (j : Json) : String :=
  match j.lookup "name" with
  | some (.str s) => s
  | _ => ""

/-- The `in` location string of a parameter entry. -/
def paramLoc (j : Json) : String :=
  match j.lookup "in" with
  | some (.str s) => s
  | _ => ""

/-- Number of entries in an operation's `responses` object. -/
def responseCount (op : Json) : Nat :=
  match op.lookup "responses" with
  | some (.obj fs) => fs.length
  | _ => 0


/-! ## Lemma infrastructure -/

theorem find?_objSetFields_self (k : String) (v : Json) :
    ∀ fs : List (String × Json),
      ((objSetFields fs k v).find? (fun p => p.1 == k)).map (·.2) = some v := by
  intro fs
  induction fs with
  | nil => simp [objSetFields, List.find?]
  | cons p rest ih =>
      by_cases h : p.1 == k
      · simp [objSetFields, h, List.find?]
      · simp only [objSetFields, h]
        simp [List.find?, h, ih]

theorem find?_objSetFields_ne (k k' : String) (v : Json) (hne : k' ≠ k) :
    ∀ fs : List (String × Json),
      ((objSetFields fs k v).find? (fun p => p.1 == k')).map (·.2)
        = (fs.find? (fun p => p.1 == k')).map (·.2) := by
  intro fs
  induction fs with
  | nil =>
      have : (k == k') = false := by
        simp; exact fun hh => hne hh.symm
      simp [objSetFields, List.find?, this]
  | cons p rest ih =>
      by_cases h : p.1 == k
      · have hk : p.1 = k := by simpa using h
        have : (p.1 == k') = false := by
          simp [hk]; exact fun hh => hne hh.symm
        simp [objSetFields, h, List.find?, this]
      · simp only [objSetFields, h, if_false]
        by_cases h2 : p.1 == k'
        · simp [List.find?, h2]
        · simp [List.find?, h2, ih]

theorem lookup_dropUndef (k : String) (v : Json) (hv : v ≠ Json.undef) :
    ∀ fs : List (String × Json),
      (fs.find? (fun p => p.1 == k)).map (·.2) = some v →
      ((dropUndefExceptTags fs).find? (fun p => p.1 == k)).map (·.2) = some v := by
  intro fs
  induction fs with
  | nil => simp [List.find?]
  | cons p rest ih =>
      intro h
      by_cases hk : p.1 == k
      · have hv0 : p.2 = v := by
          simp [List.find?, hk] at h
          exact h
        have hkeep : (p.1 == "tags" || (match p.2 with | .undef => false | _ => true)) = true := by
          rw [hv0]
          cases v <;> simp_all
        simp [dropUndefExceptTags, List.filter, hkeep, List.find?, hk, hv0]
      · have h' : (rest.find? (fun p => p.1 == k)).map (·.2) = some v := by
          simpa [List.find?, hk] using h
        by_cases hkeep : (p.1 == "tags" || (match p.2 with | .undef => false | _ => true)) = true
        · simp [dropUndefExceptTags, List.filter, hkeep, List.find?, hk]
          simpa [dropUndefExceptTags] using ih h'
        · simp [dropUndefExceptTags, List.filter, hkeep]
          simpa [dropUndefExceptTags] using ih h'

theorem any_update_find (c m : String) (f : MethodMeta → MethodMeta) :
    ∀ l : List ((String × String) × MethodMeta), l.any (metaKeyMatch c m) = true →
      (((l.map (fun p => if metaKeyMatch c m p then (p.1, f p.2) else p)).find?
          (metaKeyMatch c m)).map (·.2))
        = some (f (((l.find? (metaKeyMatch c m)).map (·.2)).getD {})) := by
  intro l
  induction l with
  | nil => simp
  | cons p rest ih =>
      intro hany
      by_cases hp : metaKeyMatch c m p
      · have hifp : (if metaKeyMatch c m p then (p.1, f p.2) else p) = (p.1, f p.2) := by
          simp [hp]
        have hp2 : metaKeyMatch c m (p.1, f p.2) = true := by
          simpa [metaKeyMatch] using hp
        rw [List.map_cons, hifp, List.find?_cons_of_pos _ hp2,
            List.find?_cons_of_pos _ hp]
        simp
      · have hpf : metaKeyMatch c m p = false := eq_false_of_ne_true hp
        have hrest : rest.any (metaKeyMatch c m) = true := by
          simpa [List.any_cons, hpf] using hany
        have hifp : (if metaKeyMatch c m p then (p.1, f p.2) else p) = p := by
          simp [hpf]
        rw [List.map_cons, hifp, List.find?_cons_of_neg _ hp,
            List.find?_cons_of_neg _ hp]
        exact ih hrest

theorem none_append_find (c m : String) (f : MethodMeta → MethodMeta) :
    ∀ l : List ((String × String) × MethodMeta), l.any (metaKeyMatch c m) = false →
      (((l ++ [((c, m), f {})]).find? (metaKeyMatch c m)).map (·.2)) = some (f {}) := by
  intro l
  induction l with
  | nil =>
      have : metaKeyMatch c m ((c, m), f {}) = true := by simp [metaKeyMatch]
      simp [List.find?_cons_of_pos _ this]
  | cons p rest ih =>
      intro hany
      have hp : metaKeyMatch c m p = false := by
        by_contra hc
        simp [List.any_cons, eq_true_of_ne_false hc] at hany
      have hrest : rest.any (metaKeyMatch c m) = false := by
        simpa [List.any_cons, hp] using hany
      rw [List.cons_append, List.find?_cons_of_neg _ (by simp [hp])]
      exact ih hrest

/-- `Reflect.defineMetadata` followed by `Reflect.getMetadata` on the same
(class, member) key observes the update. -/
theorem findMeta?_updateMeta (s : Store) (c m : String) (f : MethodMeta → MethodMeta) :
    findMeta? (updateMeta s c m f) c m = some (f (findMeta s c m)) := by
  by_cases h : s.meth.any (metaKeyMatch c m)
  · rw [findMeta?, updateMeta, if_pos h]
    exact any_update_find c m f s.meth h
  · have h2 := eq_false_of_ne_true h
    rw [findMeta?, updateMeta, if_neg h]
    rw [none_append_find c m f s.meth h2]
    have hnone : (s.meth.find? (metaKeyMatch c m)) = none := by
      rw [List.find?_eq_none]
      intro x hx
      by_contra hc
      have : s.meth.any (metaKeyMatch c m) = true := by
        rw [List.any_eq_true]
        exact ⟨x, hx, by simpa using hc⟩
      simp [this] at h2
    simp [findMeta, findMeta?, hnone]

/-- Each `ApiQuery` application appends one entry to the accumulated query
parameter list: accumulation order is decorator application order. -/
theorem getApiQueries_ApiQuery (s : Store) (c m : String) (o : ApiQueryOptions) :
    getApiQueries (ApiQuery o c m s) c m = getApiQueries s c m ++ [apiQueryFact o] := by
  unfold ApiQuery getApiQueries
  rw [findMeta?_updateMeta]
  cases hq : findMeta? s c m with
  | none => simp [findMeta, hq]
  | some mm => simp [findMeta, hq]

/-- The `responses` member of every generated operation: the declared
responses (ascending status order) when any exist, the synthesized default
200 otherwise. -/
theorem lookup_generateOperation_responses (s : Store) (r : RouteInfo) :
    (generateOperation s r).lookup "responses" = some (.obj (
      if ((findMeta s r.controllerName r.handlerName).responses.getD []).isEmpty
      then [("200", defaultSuccessResponse)]
      else ((findMeta s r.controllerName r.handlerName).responses.getD []).map
        (fun p => (natKey p.1, p.2)))) := by
  simp only [generateOperation, Json.lookup]
  set mm := findMeta s r.controllerName r.handlerName with hmm
  set respFields : List (String × Json) :=
    (if (mm.responses.getD []).isEmpty then [("200", defaultSuccessResponse)]
     else (mm.responses.getD []).map (fun p => (natKey p.1, p.2))) with hrf
  set o1 := objSetFields (operationFields (mm.operation.getD {})) "responses"
    (.obj respFields) with ho1
  set tg := getApiTags s r.controllerName with htg
  set o2 := (if tg.isEmpty then o1 else objSetFields o1 "tags"
    (.arr (tg.map Json.str))) with ho2
  set ps := (mm.params.getD [] ++ mm.queries.getD []) with hps
  set o3 := (if ps.isEmpty then o2 else objSetFields o2 "parameters" (.arr ps))
    with ho3
  set bd := mm.body.getD (.obj []) with hbd
  set o4 := (if hasKeys bd then objSetFields o3 "requestBody" bd else o3) with ho4
  have h1 : (o1.find? (fun p => p.1 == "responses")).map (·.2)
      = some (.obj respFields) := find?_objSetFields_self _ _ _
  have h2 : (o2.find? (fun p => p.1 == "responses")).map (·.2)
      = some (.obj respFields) := by
    by_cases ht : tg.isEmpty
    · rw [ho2, if_pos ht]; exact h1
    · rw [ho2, if_neg ht,
        find?_objSetFields_ne "tags" "responses" (.arr (tg.map Json.str)) (by decide)]
      exact h1
  have h3 : (o3.find? (fun p => p.1 == "responses")).map (·.2)
      = some (.obj respFields) := by
    by_cases hp : ps.isEmpty
    · rw [ho3, if_pos hp]; exact h2
    · rw [ho3, if_neg hp,
        find?_objSetFields_ne "parameters" "responses" (.arr ps) (by decide)]
      exact h2
  have h4 : (o4.find? (fun p => p.1 == "responses")).map (·.2)
      = some (.obj respFields) := by
    by_cases hb : hasKeys bd
    · rw [ho4, if_pos hb,
        find?_objSetFields_ne "requestBody" "responses" bd (by decide)]
      exact h3
    · rw [ho4, if_neg hb]; exact h3
  exact lookup_dropUndef "responses" (.obj respFields) (by intro h; cases h) o4 h4

/-- Every generated operation has at least one response entry. -/
theorem responseCount_pos (s : Store) (r : RouteInfo) :
    0 < responseCount (generateOperation s r) := by
  rw [responseCount, lookup_generateOperation_responses]
  by_cases h : ((findMeta s r.controllerName r.handlerName).responses.getD []).isEmpty
  · simp [h]
  · simp only [h, if_false]
    have : (findMeta s r.controllerName r.handlerName).responses.getD [] ≠ [] := by
      intro he; simp [he] at h
    simp [List.length_pos, this]

theorem apiParamFact_in (o : ApiParamOptions) :
    (apiParamFact o).lookup "in" = some (.str "path") := by
  simp [apiParamFact, Json.lookup, List.find?]

theorem apiParamFact_required (o : ApiParamOptions) :
    (apiParamFact o).lookup "required" = some (.bool (!(o.required == some false))) := by
  rcases hd : o.description with _ | d <;>
    simp [apiParamFact, Json.lookup, List.find?, undefEntry, hd]

theorem apiQueryFact_in (o : ApiQueryOptions) :
    (apiQueryFact o).lookup "in" = some (.str "query") := by
  simp [apiQueryFact, Json.lookup, List.find?]

theorem apiQueryFact_required (o : ApiQueryOptions) :
    (apiQueryFact o).lookup "required" = some (.bool (o.required.getD false)) := by
  rcases hd : o.description with _ | d <;>
    simp [apiQueryFact, Json.lookup, List.find?, optEntry, hd]

/-- The expected value of the inline 200-response schema generated for
`UserListResponseDto` on `GET /api/users`. -/
def userListInlineSchema : Json :=
  .obj [("type", .str "object"),
        ("properties", .obj
          [("data", .obj [("type", .str "array"),
                          ("description", .str "User list"),
                          ("items", .obj [("type", .str "object")])]),
           ("total", .obj [("type", .str "number"),
                           ("description", .str "Total count"),
                           ("example", .num 100)]),
           ("page", .obj [("type", .str "number"),
                          ("description", .str "Current page"),
                          ("example", .num 1)]),
           ("limit", .obj [("type", .str "number"),
                           ("description", .str "Items per page"),
                           ("example", .num 10)])]),
        ("required", .arr [])]


/-! ## The claims -/

set_option maxRecDepth 40000 in
/-- Claim C1 (counterexample).  The claim states that invoking document
generation twice with no new declarations in between yields byte-identical
output.  It is false: for the declaration set of `miniStore` (one `@Post`
route with `@ApiBody({ type: CreateUserDto })` over a decorated
`CreateUserDto`), the serialized output of the second `getSpecAsJson`
invocation differs from the first — the first invocation's
`processSchemaReferences` pass mutates the stored request-body fact
(replacing the class-valued schema by a `$ref` object), and
`collectDtoClasses` on the second run finds no class behind the `$ref`, so
`components.schemas.CreateUserDto` disappears. -/
theorem C1_second_generation_counterexample :
    getSpecAsJson appConfig miniState ≠ getSpecAsJson appConfig miniOne.2 := by
  decide

set_option maxRecDepth 40000 in
/-- Claim C1 (amended).  What does hold: generation reaches a fixed point
after the first invocation — the second and third outputs are byte-identical
— and the only difference between the first and second documents is the loss
of component schemas collected from request bodies: `CreateUserDto` in the
minimal scenario, `CreateUserDto` and `UpdateUserDto` in the repository's
`UserController` scenario. -/
theorem C1_second_generation_stabilizes :
    getSpecAsJson appConfig miniOne.2 = getSpecAsJson appConfig miniTwo.2 ∧
    ((miniOne.1.lookupPath ["components", "schemas"]).map Json.keys)
      = some ["CreateUserDto"] ∧
    ((miniTwo.1.lookupPath ["components", "schemas"]).map Json.keys) = some [] ∧
    ((docOne.lookupPath ["components", "schemas"]).map Json.keys)
      = some ["CreateUserDto", "UpdateUserDto"] ∧
    ((docTwo.lookupPath ["components", "schemas"]).map Json.keys) = some [] := by
  refine ⟨by decide, by decide, by decide, by decide, by decide⟩

set_option maxRecDepth 40000 in
/-- Claim C2 (counterexample).  The claim asserts that generating the
document for `GET ""` on `UserController` produces a
`components.schemas.UserResponseDto` entry and a 200-response schema equal
to a `$ref` to `UserListResponseDto` (or an inlined array-of-ref).  Neither
holds: the component schemas of the generated document are exactly
`CreateUserDto` and `UpdateUserDto` (classes referenced only from responses
are inlined at decoration time and never collected), and the 200-response
schema has no `$ref` and is a plain object schema, not an array-of-ref. -/
theorem C2_user_list_route_counterexample :
    ((docOne.lookupPath ["components", "schemas"]).map Json.keys)
      = some ["CreateUserDto", "UpdateUserDto"] ∧
    "UserResponseDto" ∉ (["CreateUserDto", "UpdateUserDto"] : List String) ∧
    ((docOne.lookupPath ["paths", "/api/users", "get", "responses", "200",
        "content", "application/json", "schema"]).bind (·.lookup "$ref")) = none ∧
    ((docOne.lookupPath ["paths", "/api/users", "get", "responses", "200",
        "content", "application/json", "schema"]).bind (·.lookup "type"))
      = some (.str "object") := by
  exact ⟨by decide, by decide, rfl, rfl⟩

set_option maxRecDepth 40000 in
/-- Claim C2 (amended).  What the generated document actually contains for
the `GET ""` route: the 200-response schema is the object schema inlined
from `UserListResponseDto`'s property facts at decoration time (its `data`
property being an array of plain `{ type: "object" }` items, its `required`
list empty), and `components.schemas` holds exactly the DTO classes
reachable from request bodies: `CreateUserDto` and `UpdateUserDto`. -/
theorem C2_user_list_route_schemas :
    (docOne.lookupPath ["paths", "/api/users", "get", "responses", "200",
        "content", "application/json", "schema"]) = some userListInlineSchema ∧
    ((docOne.lookupPath ["components", "schemas"]).map Json.keys)
      = some ["CreateUserDto", "UpdateUserDto"] := by
  exact ⟨rfl, by decide⟩

set_option maxRecDepth 40000 in
/-- Claim C3 (counterexample).  A response declared with `isArray: true` and
the DTO class `ErrorResponseDto` yields, in the generated document, an array
schema whose `items` is the inlined object schema (keys `type`,
`properties`, `required`) — not `{ $ref: "#/components/schemas/..." }`. -/
theorem C3_isArray_response_counterexample :
    ((arrDoc.lookupPath ["paths", "/api/users/errors", "get", "responses", "200",
        "content", "application/json", "schema"]).bind (·.lookup "type"))
      = some (.str "array") ∧
    (((arrDoc.lookupPath ["paths", "/api/users/errors", "get", "responses", "200",
        "content", "application/json", "schema"]).bind (·.lookup "items")).map
        Json.keys) = some ["type", "properties", "required"] ∧
    (((arrDoc.lookupPath ["paths", "/api/users/errors", "get", "responses", "200",
        "content", "application/json", "schema"]).bind (·.lookup "items")).bind
        (·.lookup "$ref")) = none := by
  exact ⟨rfl, by decide, rfl⟩

/-- Claim C3 (amended).  For every DTO class with a non-empty property map,
`generateSchemaFromType(type, true)` produces
`{ type: "array", items: <inline object schema of the class's property
facts> }`; the `items` member is never a `$ref`. -/
theorem C3_isArray_inlines_items (h : PropHeap) (c : ClassId)
    (hp : (getApiProperties h c).isEmpty = false) :
    generateSchemaFromType h (.dto c) true
      = .obj [("type", .str "array"),
              ("items", .obj [("type", .str "object"),
                ("properties", .obj (getApiProperties h c)),
                ("required", .arr (requiredKeys (getApiProperties h c)))])] := by
  simp [generateSchemaFromType, schemaFromTypeBase, hp]

/-- Witness for C3's amended theorem at the repository's decorated
`ErrorResponseDto`. -/
theorem C3_isArray_inlines_items_witness :
    (getApiProperties repoHeap ClassId.errorResponseDto).isEmpty = false ∧
    generateSchemaFromType repoHeap (.dto ClassId.errorResponseDto) true
      = .obj [("type", .str "array"),
              ("items", .obj [("type", .str "object"),
                ("properties", .obj (getApiProperties repoHeap ClassId.errorResponseDto)),
                ("required", .arr (requiredKeys
                  (getApiProperties repoHeap ClassId.errorResponseDto)))])] :=
  ⟨rfl, C3_isArray_inlines_items repoHeap ClassId.errorResponseDto rfl⟩

set_option maxRecDepth 40000 in
/-- Claim C4.  The route declared `"/:id"` on `UserController` (mapped under
`/api/users`) appears in the generated document as exactly
`"/api/users/{id}"`, with the `get` operation present; the root route
contributes the bare mapped path; `convertPath` performs the `:id` to
`{id}` translation. -/
theorem C4_path_translation :
    ((docOne.lookup "paths").map Json.keys)
      = some ["/api/users", "/api/users/{id}"] ∧
    ((docOne.lookupPath ["paths", "/api/users/{id}"]).map Json.keys)
      = some ["get", "put", "delete"] ∧
    pathKeyFor ⟨"/:id", "get", "getUserById", "UserController"⟩ = "/api/users/{id}" ∧
    pathKeyFor ⟨"/", "get", "getUsers", "UserController"⟩ = "/api/users" ∧
    convertPath "/:id" = "/{id}" := by
  refine ⟨by decide, by decide, by decide, by decide, by decide⟩

/-- Claim C5 (counterexample).  The claim says a method whose route metadata
carries an unrecognized verb is "neither registered on the router nor
recorded as a documentation entry".  The second half is false: `setupRoutes`
guards only the router registration; the `swaggerGenerator.addRoute` call is
outside the guard, so the route IS recorded (here with the lowercased bogus
verb `foo`). -/
theorem C5_malformed_verb_counterexample :
    setupRoutes "BadController" ["m"] badStore
      = ([], [⟨"/x", "foo", "m", "BadController"⟩]) ∧
    ([(⟨"/x", "foo", "m", "BadController"⟩ : RouteInfo)] : List RouteInfo) ≠ [] :=
  ⟨rfl, by simp⟩

/-- Claim C5 (amended).  A method with an unrecognized verb is silently
skipped by router registration (no registration, no thrown error — the
embedding is total), but it is still recorded as a documentation entry in
the controller's `SwaggerGenerator`. -/
theorem C5_malformed_verb_still_documented (s : Store) (c m : String)
    (rm : RouteMeta) (h : getRouteMetadata s c m = some rm)
    (hv : routerVerbs.contains (lowerString rm.method) = false) :
    setupRoutes c [m] s = ([], [⟨rm.path, lowerString rm.method, m, c⟩]) := by
  have hv2 : lowerString rm.method ∉ routerVerbs := by simpa using hv
  simp [setupRoutes, h, hv2]

/-- Witness for C5's amended theorem at the malformed-verb store. -/
theorem C5_malformed_verb_still_documented_witness :
    getRouteMetadata badStore "BadController" "m" = some ⟨"/x", "FOO", none⟩ ∧
    routerVerbs.contains (lowerString "FOO") = false ∧
    setupRoutes "BadController" ["m"] badStore
      = ([], [⟨"/x", "foo", "m", "BadController"⟩]) :=
  ⟨rfl, rfl, C5_malformed_verb_still_documented badStore "BadController" "m"
    ⟨"/x", "FOO", none⟩ rfl rfl⟩

/-- Claim C6.  A route with no declared response gets the synthesized
default: its generated operation's `responses` object is exactly
`{ "200": { description: "Success", content: { "application/json":
{ schema: { type: "object" } } } } }`; consequently every generated
operation has at least one response entry; and the default response's
content schema is the empty object schema. -/
theorem C6_default_response :
    (∀ (s : Store) (r : RouteInfo),
      (findMeta s r.controllerName r.handlerName).responses.getD [] = [] →
      (generateOperation s r).lookup "responses"
        = some (.obj [("200", defaultSuccessResponse)])) ∧
    (∀ (s : Store) (r : RouteInfo), 0 < responseCount (generateOperation s r)) ∧
    defaultSuccessResponse.lookupPath ["content", "application/json", "schema"]
      = some (.obj [("type", .str "object")]) := by
  refine ⟨fun s r h => ?_, responseCount_pos, rfl⟩
  rw [lookup_generateOperation_responses, h]
  rfl

/-- Witness for C6 at the empty store (a recorded route with nothing
declared). -/
theorem C6_default_response_witness :
    (findMeta emptyStore "C" "m").responses.getD [] = [] ∧
    (generateOperation emptyStore ⟨"/", "get", "m", "C"⟩).lookup "responses"
      = some (.obj [("200", defaultSuccessResponse)]) :=
  ⟨rfl, C6_default_response.1 emptyStore ⟨"/", "get", "m", "C"⟩ rfl⟩

set_option maxRecDepth 40000 in
/-- Claim C7 (counterexample).  For `getUsers` — `@ApiQuery({name: "page"})`
written above `@ApiQuery({name: "limit"})` — the claim expects the
generated `parameters` array in textual declaration order
`["page", "limit"]`.  It is not: stacked TypeScript decorators apply
bottom-up, so the accumulated (and emitted) order is `["limit", "page"]`. -/
theorem C7_query_order_counterexample :
    ((docParams docOne "/api/users" "get").map paramName) = ["limit", "page"] ∧
    ¬ ((docParams docOne "/api/users" "get").map paramName) = ["page", "limit"] := by
  exact ⟨by decide, by decide⟩

set_option maxRecDepth 40000 in
/-- Claim C7 (amended).  Both declared query parameters are present, each
with `in: "query"`, in decorator *application* order (`limit` before
`page`, the reverse of their textual order); in general each `ApiQuery`
application appends one entry, so accumulation order equals application
order. -/
theorem C7_query_order_amended :
    ((docParams docOne "/api/users" "get").map paramName) = ["limit", "page"] ∧
    ((docParams docOne "/api/users" "get").map paramLoc) = ["query", "query"] ∧
    (∀ (s : Store) (c m : String) (o : ApiQueryOptions),
      getApiQueries (ApiQuery o c m s) c m = getApiQueries s c m ++ [apiQueryFact o]) := by
  exact ⟨by decide, by decide, getApiQueries_ApiQuery⟩

/-- Claim C8.  `ApiParam` emits `in: "path"` and defaults `required` to
`true`; `ApiQuery` emits `in: "query"` and defaults `required` to `false`;
an explicitly supplied `required` value overrides the default in both
cases. -/
theorem C8_param_query_required_defaults :
    (∀ o : ApiParamOptions, (apiParamFact o).lookup "in" = some (.str "path")) ∧
    (∀ o : ApiParamOptions, o.required = none →
      (apiParamFact o).lookup "required" = some (.bool true)) ∧
    (∀ o : ApiQueryOptions, (apiQueryFact o).lookup "in" = some (.str "query")) ∧
    (∀ o : ApiQueryOptions, o.required = none →
      (apiQueryFact o).lookup "required" = some (.bool false)) ∧
    (∀ (o : ApiParamOptions) (b : Bool), o.required = some b →
      (apiParamFact o).lookup "required" = some (.bool b)) ∧
    (∀ (o : ApiQueryOptions) (b : Bool), o.required = some b →
      (apiQueryFact o).lookup "required" = some (.bool b)) := by
  refine ⟨apiParamFact_in, fun o h => ?_, apiQueryFact_in, fun o h => ?_,
    fun o b h => ?_, fun o b h => ?_⟩
  · rw [apiParamFact_required, h]; rfl
  · rw [apiQueryFact_required, h]; rfl
  · rw [apiParamFact_required, h]; cases b <;> rfl
  · rw [apiQueryFact_required, h]; rfl

/-- Witness for C8 at concrete option records. -/
theorem C8_param_query_required_defaults_witness :
    (apiParamFact { name := "id" }).lookup "required" = some (.bool true) ∧
    (apiQueryFact { name := "page" }).lookup "required" = some (.bool false) ∧
    (apiParamFact { name := "id", required := some false }).lookup "required"
      = some (.bool false) ∧
    (apiQueryFact { name := "page", required := some true }).lookup "required"
      = some (.bool true) :=
  ⟨C8_param_query_required_defaults.2.1 { name := "id" } rfl,
   C8_param_query_required_defaults.2.2.2.1 { name := "page" } rfl,
   C8_param_query_required_defaults.2.2.2.2.1 { name := "id", required := some false }
     false rfl,
   C8_param_query_required_defaults.2.2.2.2.2 { name := "page", required := some true }
     true rfl⟩

/-- Claim C9.  Every metadata lookup applied to a key on which the
corresponding annotation was never declared returns the empty value of its
fact kind — the empty list for queries/params/responses/properties/tags,
the empty object for the body — and never throws (all lookups are total
functions of the store).  Each annotation kind lives under its own metadata
key (`swagger:api-query`, `swagger:api-param`, ...), so the hypothesis of
each conjunct is only that *that kind's* metadata is absent on the (class,
member) key; other annotations may well be present on the same key, as they
are on every real controller method. -/
theorem C9_lookup_empty :
    (∀ (s : Store) (c m : String), ((findMeta? s c m).bind (·.queries)) = none →
      getApiQueries s c m = []) ∧
    (∀ (s : Store) (c m : String), ((findMeta? s c m).bind (·.params)) = none →
      getApiParams s c m = []) ∧
    (∀ (s : Store) (c m : String), ((findMeta? s c m).bind (·.responses)) = none →
      getApiResponses s c m = []) ∧
    (∀ (s : Store) (c m : String), ((findMeta? s c m).bind (·.body)) = none →
      getApiBody s c m = .obj []) ∧
    (∀ (h : PropHeap) (c : ClassId), chainLookup h c = none →
      getApiProperties h c = []) ∧
    (∀ (s : Store) (c : String), s.tagsMap.find? (fun p => p.1 == c) = none →
      getApiTags s c = []) := by
  refine ⟨fun s c m h => ?_, fun s c m h => ?_, fun s c m h => ?_,
    fun s c m h => ?_, fun h c hc => ?_, fun s c h => ?_⟩
  · simp [getApiQueries, h]
  · simp [getApiParams, h]
  · simp [getApiResponses, h]
  · simp [getApiBody, h]
  · simp [getApiProperties, hc]
  · simp [getApiTags, h]

/-- Witness for C9 on keys that do carry other annotations: the repository's
`getUsers` has queries, responses, an operation and a route but no
`ApiParam` and no `ApiBody`; `deleteUser` has params and responses but no
`ApiQuery`; the minimal scenario's `createUser` has a body and a route but
no `ApiResponse`; the empty heap has no `ApiProperty` declarations at
all. -/
theorem C9_lookup_empty_witness :
    ((findMeta? repoStore "UserController" "getUsers").bind (·.params)) = none ∧
    getApiParams repoStore "UserController" "getUsers" = [] ∧
    ((findMeta? repoStore "UserController" "getUsers").bind (·.body)) = none ∧
    getApiBody repoStore "UserController" "getUsers" = .obj [] ∧
    ((findMeta? repoStore "UserController" "deleteUser").bind (·.queries)) = none ∧
    getApiQueries repoStore "UserController" "deleteUser" = [] ∧
    ((findMeta? miniStore "UserController" "createUser").bind (·.responses)) = none ∧
    getApiResponses miniStore "UserController" "createUser" = [] ∧
    chainLookup ({} : PropHeap) ClassId.createUserDto = none ∧
    getApiProperties ({} : PropHeap) ClassId.createUserDto = [] :=
  ⟨rfl, C9_lookup_empty.2.1 repoStore "UserController" "getUsers" rfl,
   rfl, C9_lookup_empty.2.2.2.1 repoStore "UserController" "getUsers" rfl,
   rfl, C9_lookup_empty.1 repoStore "UserController" "deleteUser" rfl,
   rfl, C9_lookup_empty.2.2.1 miniStore "UserController" "createUser" rfl,
   rfl, C9_lookup_empty.2.2.2.2.1 {} ClassId.createUserDto rfl⟩

/-- Claim C10.  `ApiProperty` on a subclass fetches the parent's property
map through the prototype chain and mutates that very object: in the
repository's decoration, `ValidationErrorResponseDto` and
`ErrorResponseDto` resolve to the same heap address and hence the same map;
the subclass map contains all parent fields; the `details` and `error`
entries redeclared by the subclasses are visible through the parent's
`getApiProperties`; and `UserResponseDto` shares its six-field map
(including the inherited `createdAt` / `updatedAt`) with `TimestampDto`. -/
theorem C10_property_map_sharing :
    chainLookup repoHeap ClassId.validationErrorResponseDto
      = chainLookup repoHeap ClassId.errorResponseDto ∧
    (chainLookup repoHeap ClassId.errorResponseDto).isSome = true ∧
    getApiProperties repoHeap ClassId.validationErrorResponseDto
      = getApiProperties repoHeap ClassId.errorResponseDto ∧
    ((getApiProperties repoHeap ClassId.validationErrorResponseDto).map (·.1))
      = ["error", "message", "details"] ∧
    ((Json.obj (getApiProperties repoHeap ClassId.errorResponseDto)).lookupPath
        ["details", "description"]) = some (.str "Validation error details") ∧
    ((Json.obj (getApiProperties repoHeap ClassId.errorResponseDto)).lookupPath
        ["error", "description"]) = some (.str "Conflict error code") ∧
    getApiProperties repoHeap ClassId.userResponseDto
      = getApiProperties repoHeap ClassId.timestampDto ∧
    ((getApiProperties repoHeap ClassId.userResponseDto).map (·.1))
      = ["createdAt", "updatedAt", "id", "email", "name", "isActive"] := by
  refine ⟨by decide, by decide, rfl, by decide, rfl, rfl, rfl, by decide⟩

end NodeApi
